import Mathlib

/-!
Shallow embedding of `src/src/components/DxfViewer.vue` (a Vue single-file
component wrapping the dxf-viewer rendering engine).

The component's reactive `data()` fields become a `ComponentState` record.
Each synchronous block of JavaScript that runs without an intervening
`await` is embedded as one pure state-transition function:

* `loadStart`      — the prefix of `Load(url)` before `await this.dxfViewer.Load(...)`;
* `loadSettle`     — the continuation after the engine load settles: the
  success path (coordinate seeding from `this.dxfViewer.camera`) or the
  `catch` clause, followed by the `finally` clause (`loadFinalize`);
* `onProgress`     — the `_OnProgress(phase, size, totalSize)` callback;
* `clearUrl`       — the `dxfUrl === null` branch of the `dxfUrl` watcher
  (the `dxfViewer.Clear()` engine call touches no component state);
* `onMouseMove`    — the `_OnMouseMove(event)` handler, returning `none`
  when the handler returns early (no viewer, no canvas, or no camera) and
  `some worldPoint` when it commits `this.coordinates` and emits the
  coordinates-update event.

JavaScript numbers are modelled as rationals.  (The one divergence: in
JavaScript a division by zero yields a non-finite number while rational
division by zero yields 0; the theorems below never depend on the value of
such a quotient, only on whether the surrounding code commits it.)
Field-name correspondence with the spec's LoadState: `progressText` is the
spec's progressLabel and `curProgressPhase` is the spec's progressPhase.
-/

namespace DxfViewerComponent

/-- Orthographic camera bounds exposed by the engine as `this.dxfViewer.camera`:
`{left, right, top, bottom}`. -/
structure CameraBounds where
  left : ℚ
  right : ℚ
  top : ℚ
  bottom : ℚ
deriving DecidableEq

/-- The component's reactive state, from `data()` in DxfViewer.vue:
`isLoading: false, progress: null, progressText: null, curProgressPhase: null,
error: null, coordinates: null`. -/
structure ComponentState where
  isLoading : Bool
  progress : Option ℚ
  progressText : Option String
  curProgressPhase : Option String
  error : Option String
  coordinates : Option (ℚ × ℚ × ℚ)
deriving DecidableEq

/-- The all-default state produced by `data()`. -/
def initState : ComponentState :=
  { isLoading := false, progress := none, progressText := none,
    curProgressPhase := none, error := none, coordinates := none }

/-- Synchronous prefix of `Load(url)` (lines 79-81): `this.isLoading = true;
this.error = null` before the `await` of the engine load. -/
def loadStart (s : ComponentState) : ComponentState :=
  { s with isLoading := true, error := none }

/-- The camera-bounds center used to seed `this.coordinates` after a
successful load (lines 89-95): `x = (left + right) / 2,
y = (bottom + top) / 2, z = 0`. -/
def cameraCenter (camera : CameraBounds) : ℚ × ℚ × ℚ :=
  ((camera.left + camera.right) / 2, (camera.bottom + camera.top) / 2, 0)

/-- The `finally` clause of `Load` (lines 100-105): `isLoading = false;
progressText = null; progress = null; curProgressPhase = null`. -/
def loadFinalize (s : ComponentState) : ComponentState :=
  { s with isLoading := false, progressText := none, progress := none,
           curProgressPhase := none }

/-- The continuation of `Load` once the engine load settles.  An
`Except.ok cam` result models the engine promise resolving with
`this.dxfViewer.camera = cam` (possibly absent); `Except.error msg` models
the promise rejecting with an error whose `toString()` is `msg`.  The
success path seeds `coordinates` when a camera is present (lines 88-96),
the `catch` clause records the textual description in `error` (lines 97-99),
and in both cases the `finally` clause runs last.  The result type is a
plain state — the `catch` swallows the rejection, so `Load` itself always
resolves without throwing. -/
def loadSettle (result : Except String (Option CameraBounds))
    (s : ComponentState) : ComponentState :=
  match result with
  | .ok camera =>
      loadFinalize (match camera with
        | some c => { s with coordinates := some (cameraCenter c) }
        | none => s)
  | .error msg => loadFinalize { s with error := some msg }

/-- The `dxfUrl === null` branch of the `dxfUrl` watcher (lines 68-73):
`this.dxfViewer.Clear(); this.error = null; this.isLoading = false;
this.progress = null`.  Note the branch does not touch `progressText`,
`curProgressPhase` or `coordinates`. -/
def clearUrl (s : ComponentState) : ComponentState :=
  { s with error := none, isLoading := false, progress := none }

/-- The `switch (phase)` table inside `_OnProgress` (lines 155-169): the four
recognized phases select a label, any other phase leaves the label as it
was (no `default` case). -/
def progressLabelFor (phase : String) (old : Option String) : Option String :=
  if phase = "font" then some "Fetching fonts..."
  else if phase = "fetch" then some "Fetching file..."
  else if phase = "parse" then some "Parsing file..."
  else if phase = "prepare" then some "Preparing rendering data..."
  else old

/-- `_OnProgress(phase, size, totalSize)` (lines 154-177): when `phase`
differs from `curProgressPhase`, run the label table and record the phase;
then set `progress` to -1 when `totalSize` is null and to
`size / totalSize` otherwise. -/
def onProgress (phase : String) (size : ℚ) (totalSize : Option ℚ)
    (s : ComponentState) : ComponentState :=
  let s1 :=
    if some phase ≠ s.curProgressPhase then
      { s with progressText := progressLabelFor phase s.progressText,
               curProgressPhase := some phase }
    else s
  match totalSize with
  | none => { s1 with progress := some (-1) }
  | some t => { s1 with progress := some (size / t) }

/-- `_OnMouseMove(event)` (lines 113-152).  `viewerPresent` models
`this.dxfViewer` being non-null, `canvasPresent` models `GetCanvas()`
returning a canvas, `camera` models `this.dxfViewer.camera`.  The result is
`none` when the handler returns early and `some worldPoint` when it commits
`this.coordinates` (and emits the coordinates-update event with the same
point).  There is no guard on `rectWidth` or `rectHeight`. -/
def onMouseMove (viewerPresent canvasPresent : Bool)
    (camera : Option CameraBounds)
    (clientX clientY rectLeft rectTop rectWidth rectHeight : ℚ) :
    Option (ℚ × ℚ × ℚ) :=
  if !viewerPresent then none
  else if !canvasPresent then none
  else
    let x := clientX - rectLeft
    let y := clientY - rectTop
    let ndcX := (x / rectWidth) * 2 - 1
    let ndcY := -(y / rectHeight) * 2 + 1
    match camera with
    | none => none
    | some cam =>
      let camWidth := cam.right - cam.left
      let camHeight := cam.top - cam.bottom
      some (cam.left + (ndcX + 1) * camWidth / 2,
            cam.bottom + (ndcY + 1) * camHeight / 2,
            0)

/-- The fixed engine event list subscribed in `mounted()` (lines 184-187). -/
def engineEvents : List String :=
  ["loaded", "cleared", "destroyed", "resized", "pointerdown", "pointerup",
   "viewChanged", "message"]

/-- The relay handler installed per event name in `mounted()` (line 182):
`e => this.$emit("dxf-" + eventName, e)`, modelled as the list of outward
emissions (name, payload) produced by one trigger. -/
def relayHandler (α : Type) (eventName : String) (e : α) : List (String × α) :=
  [("dxf-" ++ eventName, e)]

/-- The subscriptions installed by the `mounted()` loop: one per entry of
`engineEvents`, pairing the engine event name with its relay handler. -/
def mountedSubscriptions (α : Type) :
    List (String × (α → List (String × α))) :=
  engineEvents.map (fun eventName => (eventName, relayHandler α eventName))

/-- One externally-triggered atomic transition of the component. -/
inductive Step where
  | load
  | settle (result : Except String (Option CameraBounds))
  | progressCbk (phase : String) (size : ℚ) (totalSize : Option ℚ)
  | urlCleared
  | mouseMove (viewerPresent canvasPresent : Bool)
      (camera : Option CameraBounds)
      (clientX clientY rectLeft rectTop rectWidth rectHeight : ℚ)

/-- Apply one transition to the component state.  A `mouseMove` commits
`coordinates` exactly when `onMouseMove` returns a point. -/
def applyStep (st : Step) (s : ComponentState) : ComponentState :=
  match st with
  | .load => loadStart s
  | .settle result => loadSettle result s
  | .progressCbk phase size totalSize => onProgress phase size totalSize s
  | .urlCleared => clearUrl s
  | .mouseMove v c cam x y rl rt rw rh =>
      match onMouseMove v c cam x y rl rt rw rh with
      | none => s
      | some p => { s with coordinates := some p }

/-- States reachable from `data()` defaults under any sequence of
transitions. -/
inductive Reachable : ComponentState → Prop where
  | init : Reachable initState
  | step (st : Step) {s : ComponentState} :
      Reachable s → Reachable (applyStep st s)

lemma onProgress_error (phase : String) (size : ℚ) (totalSize : Option ℚ)
    (s : ComponentState) : (onProgress phase size totalSize s).error = s.error := by
  unfold onProgress
  cases totalSize <;> dsimp only <;> split <;> rfl

lemma onProgress_isLoading (phase : String) (size : ℚ) (totalSize : Option ℚ)
    (s : ComponentState) :
    (onProgress phase size totalSize s).isLoading = s.isLoading := by
  unfold onProgress
  cases totalSize <;> dsimp only <;> split <;> rfl

lemma mouseMoveStep_error (v c : Bool) (cam : Option CameraBounds)
    (x y rl rt rw rh : ℚ) (s : ComponentState) :
    (applyStep (.mouseMove v c cam x y rl rt rw rh) s).error = s.error := by
  simp only [applyStep]
  cases h : onMouseMove v c cam x y rl rt rw rh <;> simp [h]

lemma mouseMoveStep_isLoading (v c : Bool) (cam : Option CameraBounds)
    (x y rl rt rw rh : ℚ) (s : ComponentState) :
    (applyStep (.mouseMove v c cam x y rl rt rw rh) s).isLoading = s.isLoading := by
  simp only [applyStep]
  cases h : onMouseMove v c cam x y rl rt rw rh <;> simp [h]

lemma loadSettle_isLoading (result : Except String (Option CameraBounds))
    (s : ComponentState) : (loadSettle result s).isLoading = false := by
  cases result with
  | ok cam => cases cam <;> rfl
  | error msg => rfl

/-- C2: for every reachable state of the component, a non-null `error`
implies `isLoading` is false.  Each settlement sets `isLoading = false` in
its `finally` clause in the same atomic block that may set `error`, and the
only transition setting `isLoading = true` (the start of `Load`) also
clears `error`. -/
theorem c2_error_implies_not_loading (s : ComponentState)
    (hs : Reachable s) (he : s.error ≠ none) : s.isLoading = false := by
  induction hs with
  | init => simp [initState] at he
  | step st h ih =>
    cases st with
    | load => simp [applyStep, loadStart] at he
    | settle result => exact loadSettle_isLoading result _
    | progressCbk phase size totalSize =>
        rw [applyStep, onProgress_isLoading]
        exact ih (by rw [applyStep, onProgress_error] at he; exact he)
    | urlCleared => rfl
    | mouseMove v c cam x y rl rt rw rh =>
        rw [mouseMoveStep_isLoading]
        exact ih (by rw [mouseMoveStep_error] at he; exact he)

/-- Witness for C2: the concrete reachable state after a started load
settles with failure "boom" has a non-null error, and the theorem yields
`isLoading = false` there. -/
theorem c2_error_implies_not_loading_witness :
    (applyStep (.settle (.error "boom")) (applyStep .load initState)).isLoading
      = false :=
  c2_error_implies_not_loading _
    (Reachable.step _ (Reachable.step _ Reachable.init)) (by decide)

/-- C1 counterexample: there is no generation token in `Load`.  Trace:
Load(A) starts, Load(B) starts, B settles successfully (committing
`error = none`), A settles afterwards with rejection "boom".  A's `catch`
and `finally` run unconditionally, so the final `error` is `some "boom"`,
while B's outcome alone (second conjunct) leaves `error = none` — A's
settlement overwrote a field committed by B and the final LoadState does
not reflect only B's outcome. -/
theorem c1_counterexample :
    (applyStep (.settle (.error "boom"))
      (applyStep (.settle (.ok none))
        (applyStep .load (applyStep .load initState)))).error = some "boom"
    ∧ (applyStep (.settle (.ok none)) (applyStep .load initState)).error
        = none := by
  exact ⟨rfl, rfl⟩

/-- C1 amended: `Load` has no stale-settlement guard.  A settlement applies
its `catch` and `finally` effects unconditionally, whatever state a later
load has committed: a stale rejection with description `msg` always leaves
`error = some msg`, `isLoading = false` and the progress fields null, so
the final LoadState reflects whichever settlement runs last, not
necessarily the most recently started load. -/
theorem c1_amended_no_stale_guard (s : ComponentState) (msg : String) :
    (loadSettle (.error msg) s).error = some msg
    ∧ (loadSettle (.error msg) s).isLoading = false
    ∧ (loadSettle (.error msg) s).progress = none
    ∧ (loadSettle (.error msg) s).progressText = none
    ∧ (loadSettle (.error msg) s).curProgressPhase = none
    ∧ (loadSettle (.error msg) s).coordinates = s.coordinates := by
  exact ⟨rfl, rfl, rfl, rfl, rfl, rfl⟩

/-- C3: whichever way the engine load settles (resolution with or without a
camera, or rejection), the `finally` clause leaves `isLoading = false` and
`progress`, `progressText` (the spec's progressLabel) and
`curProgressPhase` (the spec's progressPhase) null — `error` is the only
LoadState field that can remain non-default after settlement. -/
theorem c3_finalizer_clears (result : Except String (Option CameraBounds))
    (s : ComponentState) :
    (loadSettle result s).isLoading = false
    ∧ (loadSettle result s).progress = none
    ∧ (loadSettle result s).progressText = none
    ∧ (loadSettle result s).curProgressPhase = none := by
  cases result with
  | ok cam => cases cam <;> exact ⟨rfl, rfl, rfl, rfl⟩
  | error msg => exact ⟨rfl, rfl, rfl, rfl⟩

/-- C4 counterexample: setting the URL to null does not reset the whole
LoadState.  Reachable trace: a load starts, a "fetch" progress callback
arrives (setting `progressText` and `curProgressPhase`), then the URL is
set to null.  The watcher branch resets only `error`, `isLoading` and
`progress`, so the label and phase survive and the state differs from the
all-null defaults. -/
theorem c4_counterexample :
    (applyStep .urlCleared
      (applyStep (.progressCbk "fetch" 50 (some 100))
        (applyStep .load initState))).progressText = some "Fetching file..."
    ∧ (applyStep .urlCleared
        (applyStep (.progressCbk "fetch" 50 (some 100))
          (applyStep .load initState))).curProgressPhase = some "fetch"
    ∧ (applyStep .urlCleared
        (applyStep (.progressCbk "fetch" 50 (some 100))
          (applyStep .load initState))) ≠ initState := by
  refine ⟨rfl, rfl, ?_⟩
  decide

/-- C4 amended: the URL-null branch resets `isLoading`, `error` and
`progress` to their defaults but leaves `progressText` (the spec's
progressLabel), `curProgressPhase` (the spec's progressPhase) and
`coordinates` unchanged; it is idempotent, and on an already-idle
(all-default) instance it produces no state change. -/
theorem c4_amended_partial_reset (s : ComponentState) :
    (clearUrl s).isLoading = false
    ∧ (clearUrl s).error = none
    ∧ (clearUrl s).progress = none
    ∧ (clearUrl s).progressText = s.progressText
    ∧ (clearUrl s).curProgressPhase = s.curProgressPhase
    ∧ (clearUrl s).coordinates = s.coordinates
    ∧ clearUrl (clearUrl s) = clearUrl s
    ∧ clearUrl initState = initState := by
  exact ⟨rfl, rfl, rfl, rfl, rfl, rfl, rfl, rfl⟩

/-- C9: a rejected engine load is swallowed by the `catch` clause — the
settlement is a total function into plain states (it never re-raises), its
effect is exactly to record the rejection's textual description in `error`
and run the `finally` clause, and it touches nothing else (in particular
`coordinates` is unchanged). -/
theorem c9_failure_caught (s : ComponentState) (msg : String) :
    loadSettle (.error msg) s =
      { s with error := some msg, isLoading := false, progress := none,
               progressText := none, curProgressPhase := none } := by
  rfl

/-- C5 counterexample: `_OnMouseMove` has no zero-size guard.  With the
viewer, canvas and camera all present and a viewport rectangle of width 0,
the handler still commits a coordinate update (it divides by the zero
width — in JavaScript this stores and emits a non-finite coordinate)
instead of skipping the update. -/
theorem c5_counterexample :
    (onMouseMove true true (some ⟨-10, 10, 10, -10⟩) 5 5 0 0 0 200).isSome
      = true
    ∧ (applyStep (.mouseMove true true (some ⟨-10, 10, 10, -10⟩) 5 5 0 0 0 200)
        initState).coordinates ≠ none := by
  exact ⟨rfl, by decide⟩

/-- C5 amended: the handler is a no-op when the viewer, the canvas or the
camera is absent, but there is no guard on the viewport size: whenever the
viewer, canvas and camera are all present it commits a coordinate update,
even for zero width or height. -/
theorem c5_amended_guards (v c : Bool) (cam : Option CameraBounds)
    (b : CameraBounds) (x y rl rt rw rh : ℚ) :
    onMouseMove v c none x y rl rt rw rh = none
    ∧ onMouseMove false c cam x y rl rt rw rh = none
    ∧ onMouseMove v false cam x y rl rt rw rh = none
    ∧ (onMouseMove true true (some b) x y rl rt rw rh).isSome = true := by
  refine ⟨?_, rfl, ?_, rfl⟩
  · cases v <;> cases c <;> rfl
  · cases v <;> rfl

/-- C6: for a positive-size viewport (rectangle at the origin, so the
pointer position is already viewport-relative) the committed world point is
exactly the spec's formula, and the three concrete example mappings hold
for bounds `{left: -10, right: 10, top: 10, bottom: -10}` and a 200 by 200
viewport. -/
theorem c6_mapping (x y w h : ℚ) (cam : CameraBounds)
    (hw : 0 < w) (hh : 0 < h) :
    onMouseMove true true (some cam) x y 0 0 w h =
      some (cam.left + (((x / w) * 2 - 1) + 1) * (cam.right - cam.left) / 2,
            cam.bottom + ((-(y / h) * 2 + 1) + 1) * (cam.top - cam.bottom) / 2,
            0)
    ∧ onMouseMove true true (some ⟨-10, 10, 10, -10⟩) 100 100 0 0 200 200
        = some (0, 0, 0)
    ∧ onMouseMove true true (some ⟨-10, 10, 10, -10⟩) 0 0 0 0 200 200
        = some (-10, 10, 0)
    ∧ onMouseMove true true (some ⟨-10, 10, 10, -10⟩) 200 200 0 0 200 200
        = some (10, -10, 0) := by
  refine ⟨?_, by norm_num [onMouseMove], by norm_num [onMouseMove],
    by norm_num [onMouseMove]⟩
  · simp [onMouseMove]

/-- Witness for C6: the theorem applied to the center of the 200 by 200
viewport with the example bounds yields the world origin. -/
theorem c6_mapping_witness :
    onMouseMove true true (some ⟨-10, 10, 10, -10⟩) 100 100 0 0 200 200
      = some (0, 0, 0) :=
  (c6_mapping 100 100 200 200 ⟨-10, 10, 10, -10⟩ (by norm_num)
    (by norm_num)).2.1

/-- C7: `_OnProgress` sets `progress` to -1 for a null `totalSize` and to
the unclamped quotient `size / totalSize` otherwise; when the phase differs
from the last recorded one the label follows the fixed four-entry table,
an unrecognized phase leaves the label unchanged, and a repeated phase
leaves it unchanged as well. -/
theorem c7_progress (phase : String) (size t : ℚ) (totalSize : Option ℚ)
    (s : ComponentState) :
    (onProgress phase size none s).progress = some (-1)
    ∧ (onProgress phase size (some t) s).progress = some (size / t)
    ∧ (some "font" ≠ s.curProgressPhase →
        (onProgress "font" size totalSize s).progressText
          = some "Fetching fonts...")
    ∧ (some "fetch" ≠ s.curProgressPhase →
        (onProgress "fetch" size totalSize s).progressText
          = some "Fetching file...")
    ∧ (some "parse" ≠ s.curProgressPhase →
        (onProgress "parse" size totalSize s).progressText
          = some "Parsing file...")
    ∧ (some "prepare" ≠ s.curProgressPhase →
        (onProgress "prepare" size totalSize s).progressText
          = some "Preparing rendering data...")
    ∧ (phase ≠ "font" → phase ≠ "fetch" → phase ≠ "parse" →
        phase ≠ "prepare" →
        (onProgress phase size totalSize s).progressText = s.progressText)
    ∧ (some phase = s.curProgressPhase →
        (onProgress phase size totalSize s).progressText
          = s.progressText) := by
  refine ⟨rfl, rfl, ?_, ?_, ?_, ?_, ?_, ?_⟩
  · intro hne
    unfold onProgress
    cases totalSize <;> dsimp only <;> rw [if_pos hne] <;> rfl
  · intro hne
    unfold onProgress
    cases totalSize <;> dsimp only <;> rw [if_pos hne] <;> rfl
  · intro hne
    unfold onProgress
    cases totalSize <;> dsimp only <;> rw [if_pos hne] <;> rfl
  · intro hne
    unfold onProgress
    cases totalSize <;> dsimp only <;> rw [if_pos hne] <;> rfl
  · intro h1 h2 h3 h4
    unfold onProgress
    cases totalSize <;> dsimp only <;> split <;>
      simp [progressLabelFor, h1, h2, h3, h4]
  · intro h
    unfold onProgress
    cases totalSize <;> dsimp only <;> rw [if_neg (not_not_intro h)] <;> rfl

/-- Witness for C7: the spec's two example callbacks from the default
state — a "fetch" callback with size 50 of 100 yields the fetch label and
quotient progress, and a "parse" callback with a null total yields the
indeterminate progress -1. -/
theorem c7_progress_witness :
    (onProgress "fetch" 50 (some 100) initState).progressText
      = some "Fetching file..."
    ∧ (onProgress "fetch" 50 (some 100) initState).progress = some (50 / 100)
    ∧ (onProgress "parse" 10 none initState).progress = some (-1) :=
  ⟨(c7_progress "fetch" 50 100 (some 100) initState).2.2.2.1 (by decide),
   (c7_progress "fetch" 50 100 (some 100) initState).2.1,
   (c7_progress "parse" 10 0 none initState).1⟩

/-- C8: `mounted()` subscribes exactly once to each of the eight fixed
engine events (the subscription list's names are exactly the eight, with no
duplicates), and every trigger of a subscribed event produces exactly one
outward emission, named by prefixing "dxf-" to the engine event name and
carrying the payload unchanged. -/
theorem c8_event_relay :
    engineEvents = ["loaded", "cleared", "destroyed", "resized",
                    "pointerdown", "pointerup", "viewChanged", "message"]
    ∧ engineEvents.Nodup
    ∧ (mountedSubscriptions ℕ).map Prod.fst = engineEvents
    ∧ ∀ (α : Type) (name : String) (e : α),
        relayHandler α name e = [("dxf-" ++ name, e)]
        ∧ (relayHandler α name e).length = 1 := by
  exact ⟨rfl, by decide, rfl, fun α name e => ⟨rfl, rfl⟩⟩

/-- C10: `coordinates` is a frame condition of every transition except a
pointer move and a successful settlement that exposes a camera: the
URL-null reset, a failed settlement, a successful settlement without a
camera, the start of a load and a progress callback all leave it
unchanged, while a successful settlement with camera bounds `cam` sets it
to the bounds center. -/
theorem c10_coordinates_frame (s : ComponentState) (msg phase : String)
    (size : ℚ) (totalSize : Option ℚ) (cam : CameraBounds) :
    (applyStep .urlCleared s).coordinates = s.coordinates
    ∧ (applyStep (.settle (.error msg)) s).coordinates = s.coordinates
    ∧ (applyStep (.settle (.ok none)) s).coordinates = s.coordinates
    ∧ (applyStep (.settle (.ok (some cam))) s).coordinates
        = some (cameraCenter cam)
    ∧ (applyStep .load s).coordinates = s.coordinates
    ∧ (applyStep (.progressCbk phase size totalSize) s).coordinates
        = s.coordinates := by
  refine ⟨rfl, rfl, rfl, rfl, rfl, ?_⟩
  · unfold applyStep onProgress
    cases totalSize <;> dsimp only <;> split <;> rfl

end DxfViewerComponent
